import Mathlib

/-!
Shallow embedding of `src/online/onlinedatacontroller.cpp` (Little Navmap online
data controller): the download chain state machine (`startDownloadInternal`,
`downloadFinished`, `downloadFailed`, `stopAllProcesses`), the reschedule timer
policy (`startDownloadTimer`) and the spatial aircraft cache query
(`getAircraft`).

External collaborators (HTTP transport, the status/whazzup text parsers inside
`OnlinedataManager`, gzip decompression, Qt dialogs, Marble rectangle geometry)
are modelled as inputs: each handler takes an environment record carrying the
values the manager/parsers would return, and produces the successor controller
state together with the list of observable effects (downloads started, signals
emitted, dialogs shown) in the order the source performs them.

Times (`QDateTime`) are modelled as integer seconds; `QHash<QString, Pos>` is
modelled as a key-sorted association list so that its key list is canonical in
its key set; geographic positions are abstracted to integer pairs with the
great-circle distance function (floating point, out of scope) supplied as an
explicit function argument measured in meters.
-/

namespace OnlineData

/-- C++ enum of `OnlinedataController`: the current download chain stage. -/
inductive DownloadState where
  | NONE
  | DOWNLOADING_STATUS
  | DOWNLOADING_WHAZZUP
  | DOWNLOADING_WHAZZUP_SERVERS
deriving DecidableEq

/-- C++ enum `opts::OnlineNetwork` from the options. -/
inductive OnlineNetwork where
  | ONLINE_NONE
  | ONLINE_VATSIM
  | ONLINE_IVAO
  | ONLINE_CUSTOM_STATUS
  | ONLINE_CUSTOM
deriving DecidableEq

/-- Geographic position, abstracted to integer coordinates (the floating-point
geodesic math of `atools::geo::Pos` is external; distance is passed in as a
function where needed). `⟨0, 0⟩` stands for the default-constructed position. -/
structure Pos where
  lat : Int
  lon : Int
deriving DecidableEq

/-- The slice of `atools::fs::sc::SimConnectAircraft` the controller reads:
the airplane registration and the position. -/
structure SimConnectAircraft where
  airplaneRegistration : String
  position : Pos
deriving DecidableEq

/-- Key-sorted association list modelling `QHash<QString, atools::geo::Pos>`
(`simulatorAiRegistrations` / `curRegistrations`); sorting keeps the key list
canonical in the key set, mirroring the source's `keys()` list comparison. -/
def RegMap : Type := List (String × Pos)

instance : DecidableEq RegMap := by
  unfold RegMap
  exact inferInstance

/-- The empty registration hash. -/
def regEmpty : RegMap := []

/-- QHash::insert - inserts keeping keys sorted, replacing an existing key. -/
def regInsert (k : String) (v : Pos) : RegMap → RegMap
  | [] => [(k, v)]
  | (k1, v1) :: t =>
    match compare k k1 with
    | .lt => (k, v) :: (k1, v1) :: t
    | .eq => (k, v) :: t
    | .gt => (k1, v1) :: regInsert k v t

/-- QHash::remove of a key. -/
def regRemove (k : String) (m : RegMap) : RegMap :=
  List.filter (fun p => !(p.1 == k)) m

/-- QHash::keys - the list of keys (canonical by the sorted representation). -/
def regKeys (m : RegMap) : List String :=
  List.map Prod.fst m

/-- QHash::contains. -/
def regContains (m : RegMap) (k : String) : Bool :=
  (List.lookup k m).isSome

/-- QHash::value - value for the key, default-constructed `Pos` when absent. -/
def regValue (m : RegMap) (k : String) : Pos :=
  (List.lookup k m).getD { lat := 0, lon := 0 }

/-- Observable effects of a controller step, in source order: transport calls,
emitted Qt signals and modal dialogs. -/
inductive Effect where
  | cancelDownload
  | startDownload (url : String)
  | clientsAtcUpdated (loadAll keepSelection : Bool)
  | serversUpdated (loadAll keepSelection : Bool)
  | networkChanged
  | warnDialogRetry
  | statusMessageDialog
deriving DecidableEq

/-- Mutable state of `OnlinedataController` relevant to the embedded logic.
`timerRunning`/`timerIntervalMillis` model the `QTimer downloadTimer`;
`downloaderUrl` models `downloader->setUrl`. -/
structure ControllerState where
  currentState : DownloadState
  whazzupGzipped : Bool
  lastUpdateTime : Int
  lastServerDownload : Int
  timerRunning : Bool
  timerIntervalMillis : Int
  aircraftCache : List SimConnectAircraft
  simulatorAiRegistrations : RegMap
  downloaderUrl : String
deriving DecidableEq

/-- Read-only option values the controller consults (`OptionData::instance()`). -/
structure OptionData where
  onlineNetwork : OnlineNetwork
  onlineStatusUrl : String
  onlineWhazzupUrl : String
  onlineReloadTimeSeconds : Int
  onlineReloadTimeSecondsConfig : Int
deriving DecidableEq

/-- Values the external `OnlinedataManager` parsers report back to the
controller during `downloadFinished`: the status-derived whazzup URL and gzip
flag, the operator message, whether `readFromWhazzup` accepted the payload as
newer, the voice/servers URL from the status data, and the whazzup-advised
reload minutes used by the timer policy. -/
structure ManagerEnv where
  whazzupUrlFromStatus : String
  statusGzipped : Bool
  messageFromStatus : String
  whazzupAccepted : Bool
  whazzupVoiceUrlFromStatus : String
  reloadMinutesFromWhazzup : Int
deriving DecidableEq

/-- Source constant: minimum minutes between two servers-file downloads. -/
def MIN_SERVER_DOWNLOAD_INTERVAL_MIN : Int := 15

/-- Source constant `atools::geo::nmToMeter(30)`: duplicate-suppression radius
in meters; `nmToMeter` (outside `src/`) converts at 1852 meters per nautical
mile, so the threshold is `30 * 1852 = 55560`. -/
def MIN_DISTANCE_DUPLICATE : Int := 30 * 1852

/-- `OnlinedataController::startDownloadTimer`: stops the timer, computes the
reload interval by precedence (custom network → options value; config override
`-1` → whazzup-advised minutes with a 60 s floor; otherwise the override with a
60 s floor), sets the interval in milliseconds and restarts the timer. -/
def startDownloadTimer (od : OptionData) (reloadMinutesFromWhazzup : Int)
    (s : ControllerState) : ControllerState :=
  let intervalSeconds : Int :=
    if od.onlineNetwork = OnlineNetwork.ONLINE_CUSTOM ∨
       od.onlineNetwork = OnlineNetwork.ONLINE_CUSTOM_STATUS then
      od.onlineReloadTimeSeconds
    else
      if od.onlineReloadTimeSecondsConfig = -1 then
        max (reloadMinutesFromWhazzup * 60) 60
      else
        max od.onlineReloadTimeSecondsConfig 60
  { s with timerRunning := true, timerIntervalMillis := intervalSeconds * 1000 }

/-- `OnlinedataController::stopAllProcesses`: cancel the outstanding download,
stop the timer, reset the stage and clear the remembered registrations. -/
def stopAllProcesses (s : ControllerState) : ControllerState × List Effect :=
  ({ s with
      timerRunning := false,
      currentState := DownloadState.NONE,
      simulatorAiRegistrations := regEmpty },
   [Effect.cancelDownload])

/-- `OnlinedataController::startDownloadInternal`: stop everything, then - if a
network is selected - pick the first URL of the chain (status file when no
status-derived whazzup URL exists yet and a status URL is configured, else a
whazzup URL from config or status) and start that download. -/
def startDownloadInternal (od : OptionData) (env : ManagerEnv)
    (s : ControllerState) : ControllerState × List Effect :=
  let stop := stopAllProcesses s
  if od.onlineNetwork = OnlineNetwork.ONLINE_NONE then
    (stop.1, stop.2)
  else
    let s1 := { stop.1 with whazzupGzipped := env.statusGzipped }
    if s1.currentState = DownloadState.NONE then
      if env.whazzupUrlFromStatus = "" ∧ od.onlineStatusUrl ≠ "" then
        ({ s1 with
            currentState := DownloadState.DOWNLOADING_STATUS,
            downloaderUrl := od.onlineStatusUrl },
         stop.2 ++ [Effect.startDownload od.onlineStatusUrl])
      else
        if od.onlineWhazzupUrl ≠ "" ∨ env.whazzupUrlFromStatus ≠ "" then
          let url :=
            if env.whazzupUrlFromStatus = "" then od.onlineWhazzupUrl
            else env.whazzupUrlFromStatus
          ({ s1 with
              currentState := DownloadState.DOWNLOADING_WHAZZUP,
              downloaderUrl := url },
           stop.2 ++ [Effect.startDownload url])
        else
          (s1, stop.2)
    else
      (s1, stop.2)

/-- `OnlinedataController::downloadFinished`: dispatch on the current stage.
Status stage: record the gzip flag, maybe schedule the operator-message dialog,
chain to whazzup when a URL was derived, otherwise finalize without signals.
Whazzup stage: on an accepted (newer) payload either chain to the servers file
(voice URL present and the last server download lies strictly before
`now - 15 min`) or finalize with cache/registration clear and one
clients/ATC-updated signal; on a rejected (stale) payload finalize silently.
Servers stage: stamp the server-download time, finalize with cache clear and
both update signals. -/
def downloadFinished (od : OptionData) (env : ManagerEnv) (now : Int)
    (s : ControllerState) : ControllerState × List Effect :=
  if s.currentState = DownloadState.DOWNLOADING_STATUS then
    let s1 := { s with whazzupGzipped := env.statusGzipped }
    let msgEffects :=
      if env.messageFromStatus ≠ "" then [Effect.statusMessageDialog] else []
    if env.whazzupUrlFromStatus ≠ "" then
      ({ s1 with
          currentState := DownloadState.DOWNLOADING_WHAZZUP,
          downloaderUrl := env.whazzupUrlFromStatus },
       msgEffects ++ [Effect.startDownload env.whazzupUrlFromStatus])
    else
      let s2 := startDownloadTimer od env.reloadMinutesFromWhazzup s1
      ({ s2 with currentState := DownloadState.NONE, lastUpdateTime := now },
       msgEffects)
  else if s.currentState = DownloadState.DOWNLOADING_WHAZZUP then
    if env.whazzupAccepted then
      if env.whazzupVoiceUrlFromStatus ≠ "" ∧
         s.lastServerDownload < now - MIN_SERVER_DOWNLOAD_INTERVAL_MIN * 60 then
        ({ s with
            currentState := DownloadState.DOWNLOADING_WHAZZUP_SERVERS,
            downloaderUrl := env.whazzupVoiceUrlFromStatus },
         [Effect.startDownload env.whazzupVoiceUrlFromStatus])
      else
        let s1 := startDownloadTimer od env.reloadMinutesFromWhazzup s
        ({ s1 with
            currentState := DownloadState.NONE,
            lastUpdateTime := now,
            aircraftCache := [],
            simulatorAiRegistrations := regEmpty },
         [Effect.clientsAtcUpdated true true])
    else
      let s1 := startDownloadTimer od env.reloadMinutesFromWhazzup s
      ({ s1 with currentState := DownloadState.NONE, lastUpdateTime := now },
       [])
  else if s.currentState = DownloadState.DOWNLOADING_WHAZZUP_SERVERS then
    let s1 := { s with lastServerDownload := now }
    let s2 := startDownloadTimer od env.reloadMinutesFromWhazzup s1
    ({ s2 with
        currentState := DownloadState.NONE,
        lastUpdateTime := now,
        aircraftCache := [],
        simulatorAiRegistrations := regEmpty },
     [Effect.clientsAtcUpdated true true, Effect.serversUpdated true true])
  else
    (s, [])

/-- `OnlinedataController::downloadFailed`: stop all processes, show the
blocking retry dialog, then restart the chain via `startProcessing()` (which is
`startDownloadInternal`). -/
def downloadFailed (od : OptionData) (env : ManagerEnv)
    (s : ControllerState) : ControllerState × List Effect :=
  let stop := stopAllProcesses s
  let restart := startDownloadInternal od env stop.1
  (restart.1, stop.2 ++ [Effect.warnDialogRetry] ++ restart.2)

/-- Source constant in `getAircraft`: row-count ceiling of the cache. -/
def queryMaxRows : Nat := 5000

/-- Modelled from the spec: `SimpleRectCache::validate` (the cache class is not
under `src/`) applies the row-count ceiling, truncating the cached list to at
most `maxRows` records. -/
def validate (maxRows : Nat) (l : List SimConnectAircraft) :
    List SimConnectAircraft :=
  List.take maxRows l

/-- Modelled from the spec: `SimpleRectCache::updateCache` (the cache class is
not under `src/`). A lazy query leaves the cached list untouched; a non-lazy
query whose inflated region/layer parameters no longer cover the request
(abstracted here as the boolean `paramsChanged`, since the Marble rectangle
geometry is floating point and external) clears the list. -/
def updateCacheList (lazy paramsChanged : Bool)
    (l : List SimConnectAircraft) : List SimConnectAircraft :=
  if lazy then l
  else if paramsChanged then [] else l

/-- Simulator-side inputs of `getAircraft`: the user aircraft
(`NavApp::getUserAircraft`), the connection flag (`NavApp::isConnected`), the
debug-aircraft flag and the AI aircraft list (`NavApp::getAiAircraft`). -/
structure SimEnv where
  userAircraft : SimConnectAircraft
  connected : Bool
  userDebug : Bool
  aiAircraft : List SimConnectAircraft

/-- Registration snapshot built at the top of `getAircraft`: user aircraft
registration and position, then - when connected or debugging - every AI
aircraft, and finally the empty-string key removed. -/
def buildRegistrations (sim : SimEnv) : RegMap :=
  let m := regInsert sim.userAircraft.airplaneRegistration
      sim.userAircraft.position regEmpty
  let m :=
    if sim.connected || sim.userDebug then
      List.foldl
        (fun acc ac => regInsert ac.airplaneRegistration ac.position acc)
        m sim.aiAircraft
    else m
  regRemove "" m

/-- Per-record dedup filter of the rebuild loop: keep the record when its
registration is absent from the snapshot, or its position is strictly more
than `MIN_DISTANCE_DUPLICATE` meters from the snapshot position for that
registration (`dist` supplies `Pos::distanceMeterTo`). -/
def keepRecord (dist : Pos → Pos → Int) (regs : RegMap)
    (ac : SimConnectAircraft) : Bool :=
  !(regContains regs ac.airplaneRegistration) ||
    decide
      (dist ac.position (regValue regs ac.airplaneRegistration) >
        MIN_DISTANCE_DUPLICATE)

/-- Inner `while(aircraftByRectQuery->next())` loop: append each returned
record that passes the dedup filter to the cache list. -/
def fetchIntoCache (dist : Pos → Pos → Int) (regs : RegMap)
    (recs : List SimConnectAircraft) (acc : List SimConnectAircraft) :
    List SimConnectAircraft :=
  List.foldl
    (fun cur ac => if keepRecord dist regs ac then cur ++ [ac] else cur)
    acc recs

/-- Outer loop over the one or two `splitAtAntiMeridian` sub-rectangles: the
backing-store results for each sub-rectangle are supplied as a list of record
lists. -/
def buildCacheList (dist : Pos → Pos → Int) (regs : RegMap)
    (subRectRecords : List (List SimConnectAircraft)) :
    List SimConnectAircraft :=
  List.foldl (fun acc recs => fetchIntoCache dist regs recs acc)
    [] subRectRecords

/-- Inputs of a `getAircraft` call that come from outside the controller: the
simulator feed, the region/layer comparison outcome of `updateCache`, the
backing-store query results per antimeridian sub-rectangle, and the distance
function. -/
structure MapQueryEnv where
  sim : SimEnv
  cacheParamsChanged : Bool
  subRectRecords : List (List SimConnectAircraft)
  dist : Pos → Pos → Int

/-- Result of a `getAircraft` call: the successor controller state, the
returned record list, and whether the backing store was queried. -/
structure AircraftResult where
  state : ControllerState
  list : List SimConnectAircraft
  fetched : Bool

/-- `OnlinedataController::getAircraft`: validate the cache against the query
parameters, build the fresh registration snapshot, clear the cache when the
snapshot key list changed, re-query the backing store (with dedup filter) only
when the cache is empty and the call is not lazy, remember the snapshot in
that case, and finally apply the row ceiling. -/
def getAircraft (env : MapQueryEnv) (lazy : Bool) (s : ControllerState) :
    AircraftResult :=
  let cache0 := updateCacheList lazy env.cacheParamsChanged s.aircraftCache
  let curRegistrations := buildRegistrations env.sim
  let cache1 :=
    if regKeys s.simulatorAiRegistrations ≠ regKeys curRegistrations then []
    else cache0
  if cache1.isEmpty && !lazy then
    let rebuilt :=
      List.foldl (fun acc recs => fetchIntoCache env.dist curRegistrations recs acc)
        cache1 env.subRectRecords
    let finalList := validate queryMaxRows rebuilt
    { state :=
        { s with
            aircraftCache := finalList,
            simulatorAiRegistrations := curRegistrations },
      list := finalList,
      fetched := true }
  else
    let finalList := validate queryMaxRows cache1
    { state := { s with aircraftCache := finalList },
      list := finalList,
      fetched := false }

/-- Concrete options for the C1 witness: public network, auto reload. -/
def c1od : OptionData :=
  { onlineNetwork := OnlineNetwork.ONLINE_VATSIM,
    onlineStatusUrl := "http://s", onlineWhazzupUrl := "http://w",
    onlineReloadTimeSeconds := 120, onlineReloadTimeSecondsConfig := -1 }

/-- Concrete manager outcome for the C1 witness: accepted, no voice URL. -/
def c1env : ManagerEnv :=
  { whazzupUrlFromStatus := "http://wz", statusGzipped := false,
    messageFromStatus := "", whazzupAccepted := true,
    whazzupVoiceUrlFromStatus := "", reloadMinutesFromWhazzup := 2 }

/-- Concrete controller state for the C1 witness: whazzup stage in flight with
a non-empty cache and snapshot. -/
def c1s : ControllerState :=
  { currentState := DownloadState.DOWNLOADING_WHAZZUP,
    whazzupGzipped := false, lastUpdateTime := 0, lastServerDownload := 0,
    timerRunning := false, timerIntervalMillis := 0,
    aircraftCache := [{ airplaneRegistration := "X",
                        position := { lat := 1, lon := 2 } }],
    simulatorAiRegistrations := [("X", { lat := 1, lon := 2 })],
    downloaderUrl := "http://wz" }

/-- C1: a whazzup-stage completion accepted as newer with no voice/servers URL
clears the aircraft cache and the remembered registration snapshot, emits
exactly one clients/ATC-updated(true, true) signal (in particular no
servers-updated signal), resets the stage to Idle, stamps the last-update time
and arms the reschedule timer. -/
theorem C1_whazzup_no_voice_finalize (od : OptionData) (env : ManagerEnv)
    (now : Int) (s : ControllerState)
    (hst : s.currentState = DownloadState.DOWNLOADING_WHAZZUP)
    (hacc : env.whazzupAccepted = true)
    (hvoice : env.whazzupVoiceUrlFromStatus = "") :
    (downloadFinished od env now s).1.aircraftCache = [] ∧
    (downloadFinished od env now s).1.simulatorAiRegistrations = regEmpty ∧
    (downloadFinished od env now s).2 = [Effect.clientsAtcUpdated true true] ∧
    (downloadFinished od env now s).1.currentState = DownloadState.NONE ∧
    (downloadFinished od env now s).1.lastUpdateTime = now ∧
    (downloadFinished od env now s).1.timerRunning = true := by
  simp [downloadFinished, hst, hacc, hvoice, startDownloadTimer]

/-- C1 witness: the finalization behaviour evaluated at a concrete accepted
whazzup completion without a voice URL. -/
theorem C1_whazzup_no_voice_finalize_witness :
    (c1s.currentState = DownloadState.DOWNLOADING_WHAZZUP ∧
     c1env.whazzupAccepted = true ∧
     c1env.whazzupVoiceUrlFromStatus = "") ∧
    ((downloadFinished c1od c1env 50 c1s).1.aircraftCache = [] ∧
     (downloadFinished c1od c1env 50 c1s).1.simulatorAiRegistrations = regEmpty ∧
     (downloadFinished c1od c1env 50 c1s).2 =
       [Effect.clientsAtcUpdated true true] ∧
     (downloadFinished c1od c1env 50 c1s).1.currentState = DownloadState.NONE ∧
     (downloadFinished c1od c1env 50 c1s).1.lastUpdateTime = 50 ∧
     (downloadFinished c1od c1env 50 c1s).1.timerRunning = true) :=
  ⟨⟨rfl, rfl, rfl⟩, C1_whazzup_no_voice_finalize c1od c1env 50 c1s rfl rfl rfl⟩

/-- Concrete options for the C2 theorems. -/
def c2od : OptionData :=
  { onlineNetwork := OnlineNetwork.ONLINE_VATSIM,
    onlineStatusUrl := "http://s", onlineWhazzupUrl := "http://w",
    onlineReloadTimeSeconds := 120, onlineReloadTimeSecondsConfig := -1 }

/-- Concrete manager outcome for the C2 theorems: accepted, voice URL set. -/
def c2env : ManagerEnv :=
  { whazzupUrlFromStatus := "http://wz", statusGzipped := false,
    messageFromStatus := "", whazzupAccepted := true,
    whazzupVoiceUrlFromStatus := "http://voice",
    reloadMinutesFromWhazzup := 2 }

/-- Concrete controller state for the C2 theorems: whazzup stage in flight,
last server download at time 100. -/
def c2s : ControllerState :=
  { currentState := DownloadState.DOWNLOADING_WHAZZUP,
    whazzupGzipped := false, lastUpdateTime := 0, lastServerDownload := 100,
    timerRunning := false, timerIntervalMillis := 0,
    aircraftCache := [], simulatorAiRegistrations := regEmpty,
    downloaderUrl := "http://wz" }

/-- C2 counterexample: at `now = 1000` exactly 15 minutes (900 s) have elapsed
since the last server download at time 100, the voice URL is non-empty and the
payload is accepted, yet the controller does not transition to the servers
stage and instead finalizes - the claim's "at least 15 minutes" bound fails at
the boundary, since the source compares strictly. -/
theorem C2_counterexample :
    c2env.whazzupVoiceUrlFromStatus ≠ "" ∧
    c2env.whazzupAccepted = true ∧
    c2s.currentState = DownloadState.DOWNLOADING_WHAZZUP ∧
    (1000 : Int) - c2s.lastServerDownload ≥
      MIN_SERVER_DOWNLOAD_INTERVAL_MIN * 60 ∧
    (downloadFinished c2od c2env 1000 c2s).1.currentState ≠
      DownloadState.DOWNLOADING_WHAZZUP_SERVERS ∧
    (downloadFinished c2od c2env 1000 c2s).2 =
      [Effect.clientsAtcUpdated true true] := by
  decide

/-- C2 amended: with an accepted payload and a non-empty voice URL the
controller transitions to the servers stage exactly when strictly more than 15
minutes have elapsed since the last server download; at exactly 15 minutes or
less it finalizes as in the no-voice-URL case. -/
theorem C2_amended_server_fetch_gate (od : OptionData) (env : ManagerEnv)
    (now : Int) (s : ControllerState)
    (hst : s.currentState = DownloadState.DOWNLOADING_WHAZZUP)
    (hacc : env.whazzupAccepted = true)
    (hvoice : env.whazzupVoiceUrlFromStatus ≠ "") :
    (now - s.lastServerDownload > MIN_SERVER_DOWNLOAD_INTERVAL_MIN * 60 →
      (downloadFinished od env now s).1.currentState =
        DownloadState.DOWNLOADING_WHAZZUP_SERVERS ∧
      (downloadFinished od env now s).2 =
        [Effect.startDownload env.whazzupVoiceUrlFromStatus]) ∧
    (now - s.lastServerDownload ≤ MIN_SERVER_DOWNLOAD_INTERVAL_MIN * 60 →
      (downloadFinished od env now s).1.currentState = DownloadState.NONE ∧
      (downloadFinished od env now s).1.timerRunning = true ∧
      (downloadFinished od env now s).1.lastUpdateTime = now ∧
      (downloadFinished od env now s).1.aircraftCache = [] ∧
      (downloadFinished od env now s).1.simulatorAiRegistrations = regEmpty ∧
      (downloadFinished od env now s).2 =
        [Effect.clientsAtcUpdated true true]) := by
  constructor
  · intro hgt
    have hcond : s.lastServerDownload <
        now - MIN_SERVER_DOWNLOAD_INTERVAL_MIN * 60 := by
      simp only [MIN_SERVER_DOWNLOAD_INTERVAL_MIN] at hgt ⊢
      omega
    simp [downloadFinished, hst, hacc, hvoice, hcond]
  · intro hle
    have hcond : ¬ s.lastServerDownload <
        now - MIN_SERVER_DOWNLOAD_INTERVAL_MIN * 60 := by
      simp only [MIN_SERVER_DOWNLOAD_INTERVAL_MIN] at hle ⊢
      omega
    simp [downloadFinished, hst, hacc, hvoice, hcond, startDownloadTimer]

/-- C2 amended witness: at `now = 1001` (901 s elapsed, strictly more than 15
minutes) the concrete completion does transition to the servers stage. -/
theorem C2_amended_server_fetch_gate_witness :
    (c2s.currentState = DownloadState.DOWNLOADING_WHAZZUP ∧
     c2env.whazzupAccepted = true ∧
     c2env.whazzupVoiceUrlFromStatus ≠ "" ∧
     (1001 : Int) - c2s.lastServerDownload >
       MIN_SERVER_DOWNLOAD_INTERVAL_MIN * 60) ∧
    (downloadFinished c2od c2env 1001 c2s).1.currentState =
      DownloadState.DOWNLOADING_WHAZZUP_SERVERS := by
  refine ⟨⟨rfl, rfl, by decide, by decide⟩, ?_⟩
  exact ((C2_amended_server_fetch_gate c2od c2env 1001 c2s rfl rfl
    (by decide)).1 (by decide)).1

/-- Concrete custom-network options for the C3 examples. -/
def c3odCustom : OptionData :=
  { onlineNetwork := OnlineNetwork.ONLINE_CUSTOM,
    onlineStatusUrl := "", onlineWhazzupUrl := "http://w",
    onlineReloadTimeSeconds := 120, onlineReloadTimeSecondsConfig := -1 }

/-- Concrete non-custom options with the `-1` override sentinel for the C3
examples. -/
def c3odAuto : OptionData :=
  { onlineNetwork := OnlineNetwork.ONLINE_VATSIM,
    onlineStatusUrl := "http://s", onlineWhazzupUrl := "",
    onlineReloadTimeSeconds := 120, onlineReloadTimeSecondsConfig := -1 }

/-- Concrete non-custom options with a 500 s override for the C3 examples. -/
def c3odCfg : OptionData :=
  { onlineNetwork := OnlineNetwork.ONLINE_IVAO,
    onlineStatusUrl := "http://s", onlineWhazzupUrl := "",
    onlineReloadTimeSeconds := 120, onlineReloadTimeSecondsConfig := 500 }

/-- Concrete controller state for the C3 examples. -/
def c3s : ControllerState :=
  { currentState := DownloadState.NONE, whazzupGzipped := false,
    lastUpdateTime := 0, lastServerDownload := 0, timerRunning := false,
    timerIntervalMillis := 0, aircraftCache := [],
    simulatorAiRegistrations := regEmpty, downloaderUrl := "" }

/-- C3: the armed interval follows the precedence custom-network options value
(no floor), else whazzup-advised minutes with a 60 s floor when the config
override is the `-1` sentinel, else the override with a 60 s floor; in
particular custom/120 s gives 120 s, auto with a below-floor whazzup advice
gives 60 s, and an override of 500 s gives 500 s (intervals stored in
milliseconds). -/
theorem C3_timer_interval_precedence (od : OptionData) (m : Int)
    (s : ControllerState) :
    ((startDownloadTimer od m s).timerRunning = true ∧
     (startDownloadTimer od m s).timerIntervalMillis =
       (if od.onlineNetwork = OnlineNetwork.ONLINE_CUSTOM ∨
           od.onlineNetwork = OnlineNetwork.ONLINE_CUSTOM_STATUS then
          od.onlineReloadTimeSeconds
        else if od.onlineReloadTimeSecondsConfig = -1 then
          max (m * 60) 60
        else
          max od.onlineReloadTimeSecondsConfig 60) * 1000) ∧
    (startDownloadTimer c3odCustom 3 c3s).timerIntervalMillis = 120 * 1000 ∧
    (startDownloadTimer c3odAuto 0 c3s).timerIntervalMillis = 60 * 1000 ∧
    (startDownloadTimer c3odCfg 3 c3s).timerIntervalMillis = 500 * 1000 := by
  refine ⟨⟨rfl, rfl⟩, by decide, by decide, by decide⟩

/-- C4: a whazzup-stage completion rejected as stale emits no signal and leaves
the aircraft cache and the registration snapshot unchanged while still
finalizing the cycle (timer armed, stage Idle, last-update time stamped). -/
theorem C4_whazzup_stale_noop (od : OptionData) (env : ManagerEnv)
    (now : Int) (s : ControllerState)
    (hst : s.currentState = DownloadState.DOWNLOADING_WHAZZUP)
    (hacc : env.whazzupAccepted = false) :
    (downloadFinished od env now s).2 = [] ∧
    (downloadFinished od env now s).1.aircraftCache = s.aircraftCache ∧
    (downloadFinished od env now s).1.simulatorAiRegistrations =
      s.simulatorAiRegistrations ∧
    (downloadFinished od env now s).1.currentState = DownloadState.NONE ∧
    (downloadFinished od env now s).1.lastUpdateTime = now ∧
    (downloadFinished od env now s).1.timerRunning = true := by
  simp [downloadFinished, hst, hacc, startDownloadTimer]

/-- Concrete options for the C4 witness. -/
def c4od : OptionData :=
  { onlineNetwork := OnlineNetwork.ONLINE_VATSIM,
    onlineStatusUrl := "http://s", onlineWhazzupUrl := "http://w",
    onlineReloadTimeSeconds := 120, onlineReloadTimeSecondsConfig := -1 }

/-- Concrete manager outcome for the C4 witness: payload rejected as stale. -/
def c4env : ManagerEnv :=
  { whazzupUrlFromStatus := "http://wz", statusGzipped := false,
    messageFromStatus := "", whazzupAccepted := false,
    whazzupVoiceUrlFromStatus := "http://voice",
    reloadMinutesFromWhazzup := 2 }

/-- Concrete controller state for the C4 witness. -/
def c4s : ControllerState :=
  { currentState := DownloadState.DOWNLOADING_WHAZZUP,
    whazzupGzipped := false, lastUpdateTime := 0, lastServerDownload := 0,
    timerRunning := false, timerIntervalMillis := 0,
    aircraftCache := [{ airplaneRegistration := "X",
                        position := { lat := 1, lon := 2 } }],
    simulatorAiRegistrations := [("X", { lat := 1, lon := 2 })],
    downloaderUrl := "http://wz" }

/-- C4 witness: the stale no-op behaviour evaluated at a concrete rejected
whazzup completion. -/
theorem C4_whazzup_stale_noop_witness :
    (c4s.currentState = DownloadState.DOWNLOADING_WHAZZUP ∧
     c4env.whazzupAccepted = false) ∧
    ((downloadFinished c4od c4env 50 c4s).2 = [] ∧
     (downloadFinished c4od c4env 50 c4s).1.aircraftCache = c4s.aircraftCache ∧
     (downloadFinished c4od c4env 50 c4s).1.simulatorAiRegistrations =
       c4s.simulatorAiRegistrations ∧
     (downloadFinished c4od c4env 50 c4s).1.currentState = DownloadState.NONE ∧
     (downloadFinished c4od c4env 50 c4s).1.lastUpdateTime = 50 ∧
     (downloadFinished c4od c4env 50 c4s).1.timerRunning = true) :=
  ⟨⟨rfl, rfl⟩, C4_whazzup_stale_noop c4od c4env 50 c4s rfl rfl⟩

/-- Unfolding step of the record-append loop. -/
theorem fetchIntoCache_cons (dist : Pos → Pos → Int) (regs : RegMap)
    (b : SimConnectAircraft) (t : List SimConnectAircraft)
    (acc : List SimConnectAircraft) :
    fetchIntoCache dist regs (b :: t) acc =
      fetchIntoCache dist regs t
        (if keepRecord dist regs b then acc ++ [b] else acc) := rfl

/-- Membership characterization of the record-append loop. -/
theorem mem_fetchIntoCache (dist : Pos → Pos → Int) (regs : RegMap)
    (recs : List SimConnectAircraft) (acc : List SimConnectAircraft)
    (ac : SimConnectAircraft) :
    ac ∈ fetchIntoCache dist regs recs acc ↔
      ac ∈ acc ∨ (ac ∈ recs ∧ keepRecord dist regs ac = true) := by
  induction recs generalizing acc with
  | nil => simp [fetchIntoCache]
  | cons b t ih =>
    rw [fetchIntoCache_cons, ih]
    by_cases hb : keepRecord dist regs b = true
    · simp only [if_pos hb, List.mem_append, List.mem_cons, List.not_mem_nil,
        or_false]
      constructor
      · rintro ((h | rfl) | ⟨h1, h2⟩)
        · exact Or.inl h
        · exact Or.inr ⟨Or.inl rfl, hb⟩
        · exact Or.inr ⟨Or.inr h1, h2⟩
      · rintro (h | ⟨rfl | h1, h2⟩)
        · exact Or.inl (Or.inl h)
        · exact Or.inl (Or.inr rfl)
        · exact Or.inr ⟨h1, h2⟩
    · simp only [if_neg hb, List.mem_cons]
      constructor
      · rintro (h | ⟨h1, h2⟩)
        · exact Or.inl h
        · exact Or.inr ⟨Or.inr h1, h2⟩
      · rintro (h | ⟨rfl | h1, h2⟩)
        · exact Or.inl h
        · exact absurd h2 hb
        · exact Or.inr ⟨h1, h2⟩

/-- Membership characterization of the fold over the sub-rectangle results. -/
theorem mem_buildCacheFold (dist : Pos → Pos → Int) (regs : RegMap)
    (ls : List (List SimConnectAircraft)) (acc : List SimConnectAircraft)
    (ac : SimConnectAircraft) :
    ac ∈ List.foldl (fun acc0 recs => fetchIntoCache dist regs recs acc0)
        acc ls ↔
      ac ∈ acc ∨ (ac ∈ ls.flatten ∧ keepRecord dist regs ac = true) := by
  induction ls generalizing acc with
  | nil => simp
  | cons b t ih =>
    rw [List.foldl_cons, ih, mem_fetchIntoCache]
    simp only [List.flatten, List.mem_append]
    tauto

/-- The dedup predicate holds exactly when the registration is absent from the
snapshot or the distance exceeds the duplicate threshold. -/
theorem keepRecord_iff (dist : Pos → Pos → Int) (regs : RegMap)
    (ac : SimConnectAircraft) :
    keepRecord dist regs ac = true ↔
      regContains regs ac.airplaneRegistration = false ∨
        dist ac.position (regValue regs ac.airplaneRegistration) >
          MIN_DISTANCE_DUPLICATE := by
  simp [keepRecord, Bool.or_eq_true, Bool.not_eq_true', decide_eq_true_eq]

/-- C6: during a cache rebuild a backing-store record ends up in the result if
and only if it was returned by one of the sub-rectangle queries and its
registration is either absent from the snapshot or recorded there at a
position strictly more than `MIN_DISTANCE_DUPLICATE` (30 nm = 55560 m) away;
in particular a record within the threshold of the snapshot position for the
same registration is excluded. -/
theorem C6_dedup_membership (dist : Pos → Pos → Int) (regs : RegMap)
    (subRectRecords : List (List SimConnectAircraft))
    (ac : SimConnectAircraft) :
    ac ∈ buildCacheList dist regs subRectRecords ↔
      ac ∈ subRectRecords.flatten ∧
        (regContains regs ac.airplaneRegistration = false ∨
         dist ac.position (regValue regs ac.airplaneRegistration) >
           MIN_DISTANCE_DUPLICATE) := by
  unfold buildCacheList
  rw [mem_buildCacheFold, keepRecord_iff]
  simp

/-- C7: any spatial query returns at most 5000 records and leaves at most 5000
records in the cache, whatever the backing store returned. -/
theorem C7_row_ceiling (env : MapQueryEnv) (lazy : Bool)
    (s : ControllerState) :
    (getAircraft env lazy s).list.length ≤ 5000 ∧
    (getAircraft env lazy s).state.aircraftCache.length ≤ 5000 := by
  have h : ∀ l : List SimConnectAircraft,
      (validate queryMaxRows l).length ≤ 5000 := by
    intro l
    simp only [validate, queryMaxRows, List.length_take]
    omega
  simp only [getAircraft]
  split <;> split <;> exact ⟨h _, h _⟩

/-- C8: a fetch failure stops everything (stage Idle, timer stopped, snapshot
cleared, transport cancelled), surfaces the blocking retry dialog, and then
immediately restarts the chain from the start routine on the stopped state -
no backoff, the restart is the very next step after the acknowledgement. -/
theorem C8_failure_stop_warn_restart (od : OptionData) (env : ManagerEnv)
    (s : ControllerState) :
    (stopAllProcesses s).1.currentState = DownloadState.NONE ∧
    (stopAllProcesses s).1.timerRunning = false ∧
    (stopAllProcesses s).1.simulatorAiRegistrations = regEmpty ∧
    (stopAllProcesses s).2 = [Effect.cancelDownload] ∧
    downloadFailed od env s =
      ((startDownloadInternal od env (stopAllProcesses s).1).1,
       Effect.cancelDownload :: Effect.warnDialogRetry ::
         (startDownloadInternal od env (stopAllProcesses s).1).2) :=
  ⟨rfl, rfl, rfl, rfl, rfl⟩

/-- The restart routine never touches the aircraft cache. -/
theorem startDownloadInternal_cache (od : OptionData) (env : ManagerEnv)
    (s : ControllerState) :
    (startDownloadInternal od env s).1.aircraftCache = s.aircraftCache := by
  unfold startDownloadInternal stopAllProcesses
  repeat' split <;> try rfl

/-- C10: stopping all processes changes exactly the timer flag, the stage and
the registration snapshot - the cached aircraft records (and the timestamps)
are left untouched - and the cache also survives the whole failure path
including the restart. -/
theorem C10_stop_preserves_cache (od : OptionData) (env : ManagerEnv)
    (s : ControllerState) :
    (stopAllProcesses s).1 =
      { s with
          timerRunning := false,
          currentState := DownloadState.NONE,
          simulatorAiRegistrations := regEmpty } ∧
    (stopAllProcesses s).1.aircraftCache = s.aircraftCache ∧
    (stopAllProcesses s).1.lastUpdateTime = s.lastUpdateTime ∧
    (stopAllProcesses s).1.lastServerDownload = s.lastServerDownload ∧
    (stopAllProcesses s).1.whazzupGzipped = s.whazzupGzipped ∧
    (downloadFailed od env s).1.aircraftCache = s.aircraftCache :=
  ⟨rfl, rfl, rfl, rfl, rfl,
   startDownloadInternal_cache od env (stopAllProcesses s).1⟩

/-- Concrete simulator feed for the C5 theorems: user aircraft "NEW", not
connected, no AI aircraft. -/
def c5sim : SimEnv :=
  { userAircraft := { airplaneRegistration := "NEW",
                      position := { lat := 0, lon := 0 } },
    connected := false, userDebug := false, aiAircraft := [] }

/-- Concrete query inputs for the C5 theorems: unchanged region parameters,
one sub-rectangle with one record, zero distance function. -/
def c5env : MapQueryEnv :=
  { sim := c5sim, cacheParamsChanged := false,
    subRectRecords := [[{ airplaneRegistration := "Z",
                          position := { lat := 5, lon := 5 } }]],
    dist := fun _ _ => 0 }

/-- Concrete controller state for the C5 theorems: non-empty cache, remembered
snapshot key "OLD" differing from the fresh snapshot key "NEW". -/
def c5s : ControllerState :=
  { currentState := DownloadState.NONE, whazzupGzipped := false,
    lastUpdateTime := 0, lastServerDownload := 0, timerRunning := false,
    timerIntervalMillis := 0,
    aircraftCache := [{ airplaneRegistration := "X",
                        position := { lat := 1, lon := 1 } }],
    simulatorAiRegistrations := [("OLD", { lat := 0, lon := 0 })],
    downloaderUrl := "" }

/-- C5 counterexample: with differing snapshot key lists and `lazy = true` the
cache is cleared but no backing-store query is issued (the source guards the
re-query with `!lazy`), so the claim's "re-query ... even when the lazy flag
is true" fails at this input. -/
theorem C5_counterexample :
    regKeys c5s.simulatorAiRegistrations ≠
      regKeys (buildRegistrations c5env.sim) ∧
    (getAircraft c5env true c5s).fetched = false ∧
    (getAircraft c5env true c5s).list = [] := by
  decide

/-- C5 amended: when the fresh snapshot's key list differs from the remembered
one the cache is cleared, but the backing store is re-queried in the same call
only when `lazy` is false - a lazy call returns the emptied cache without
querying; when the key lists are equal (and the region parameters unchanged)
the cache is not cleared on that account. -/
theorem C5_amended_snapshot_invalidation (env : MapQueryEnv)
    (s : ControllerState) :
    (regKeys s.simulatorAiRegistrations ≠
        regKeys (buildRegistrations env.sim) →
      (getAircraft env true s).fetched = false ∧
      (getAircraft env true s).list = [] ∧
      (getAircraft env false s).fetched = true) ∧
    (regKeys s.simulatorAiRegistrations =
        regKeys (buildRegistrations env.sim) →
      env.cacheParamsChanged = false →
      (getAircraft env true s).list = validate queryMaxRows s.aircraftCache ∧
      (getAircraft env true s).fetched = false) := by
  constructor
  · intro hdiff
    refine ⟨?_, ?_, ?_⟩ <;>
      simp [getAircraft, hdiff, updateCacheList, validate, queryMaxRows]
  · intro heq _hpc
    constructor <;> simp [getAircraft, heq, updateCacheList]

/-- C5 amended witness: the amended behaviour evaluated on the concrete
differing-snapshot input. -/
theorem C5_amended_snapshot_invalidation_witness :
    (regKeys c5s.simulatorAiRegistrations ≠
       regKeys (buildRegistrations c5env.sim)) ∧
    ((getAircraft c5env true c5s).fetched = false ∧
     (getAircraft c5env true c5s).list = [] ∧
     (getAircraft c5env false c5s).fetched = true) := by
  refine ⟨by decide, ?_⟩
  exact (C5_amended_snapshot_invalidation c5env c5s).1 (by decide)

/-- C9: with an unchanged registration snapshot and a non-empty cache, a lazy
query issues no backing-store fetch, and an immediately following lazy query
on the resulting state again issues no fetch and returns the same record
sequence. -/
theorem C9_lazy_query_idempotent (env : MapQueryEnv) (s : ControllerState)
    (hkeys : regKeys s.simulatorAiRegistrations =
      regKeys (buildRegistrations env.sim))
    (_hne : s.aircraftCache ≠ []) :
    (getAircraft env true s).fetched = false ∧
    (getAircraft env true (getAircraft env true s).state).fetched = false ∧
    (getAircraft env true (getAircraft env true s).state).list =
      (getAircraft env true s).list := by
  have hstate : (getAircraft env true s).state =
      { s with aircraftCache := validate queryMaxRows s.aircraftCache } := by
    simp [getAircraft, hkeys, updateCacheList]
  have hlist : (getAircraft env true s).list =
      validate queryMaxRows s.aircraftCache := by
    simp [getAircraft, hkeys, updateCacheList]
  refine ⟨?_, ?_, ?_⟩
  · simp [getAircraft, hkeys, updateCacheList]
  · rw [hstate]
    simp [getAircraft, hkeys, updateCacheList]
  · rw [hstate, hlist]
    simp [getAircraft, hkeys, updateCacheList, validate, queryMaxRows,
      List.take_take]

/-- Concrete simulator feed for the C9 witness. -/
def c9sim : SimEnv :=
  { userAircraft := { airplaneRegistration := "DABCD",
                      position := { lat := 10, lon := 20 } },
    connected := false, userDebug := false, aiAircraft := [] }

/-- Concrete query inputs for the C9 witness. -/
def c9env : MapQueryEnv :=
  { sim := c9sim, cacheParamsChanged := false,
    subRectRecords := [[{ airplaneRegistration := "N12345",
                          position := { lat := 0, lon := 0 } }]],
    dist := fun _ _ => 0 }

/-- Concrete controller state for the C9 witness: snapshot matching the
simulator feed, non-empty cache. -/
def c9s : ControllerState :=
  { currentState := DownloadState.NONE, whazzupGzipped := false,
    lastUpdateTime := 0, lastServerDownload := 0, timerRunning := false,
    timerIntervalMillis := 0,
    aircraftCache := [{ airplaneRegistration := "ZZ",
                        position := { lat := 1, lon := 1 } }],
    simulatorAiRegistrations := [("DABCD", { lat := 10, lon := 20 })],
    downloaderUrl := "" }

/-- C9 witness: lazy-query idempotence evaluated on the concrete state. -/
theorem C9_lazy_query_idempotent_witness :
    (regKeys c9s.simulatorAiRegistrations =
       regKeys (buildRegistrations c9env.sim) ∧
     c9s.aircraftCache ≠ []) ∧
    ((getAircraft c9env true c9s).fetched = false ∧
     (getAircraft c9env true (getAircraft c9env true c9s).state).fetched =
       false ∧
     (getAircraft c9env true (getAircraft c9env true c9s).state).list =
       (getAircraft c9env true c9s).list) := by
  refine ⟨⟨by decide, by decide⟩, ?_⟩
  exact C9_lazy_query_idempotent c9env c9s (by decide) (by decide)

end OnlineData
